import Mathlib

/-!
Verification development for the multi-source news aggregation pipeline
(`news_search_agent.py`), the Gemini summarizer gateway
(`gemini_summarizer.py`) and the poll/notify scheduler
(`notification_agent.py`).

The Python code is shallowly embedded: dictionaries produced by the
adapters become the `Article` structure (fields that the code reads with
`dict.get` and a default are `Option String`, `none` modelling a missing
key), parsed RSS feed items become `RssItem`, wall-clock readings
(`datetime.now()`, in seconds) become a `clock : Nat → Int` stream whose
successive reads are threaded through the recency-filter loops, and the
external collaborators (the NewsAPI HTTP request, `datetime.strptime`,
BeautifulSoup text extraction, the Gemini client) are parameters of the
embedded functions.
-/

/-- The common article record assembled by every source adapter
(`news_search_agent.py`).  `title` and `published_at` are read by the
aggregator via `dict.get` with a default, so they are `Option String`
(`none` = key absent).  `description` is `Option String` because the
summarizer distinguishes a `None`/absent value (falsy) from a string. -/
structure Article where
  title : Option String
  description : Option String
  url : String
  source : String
  author : String
  published_at : Option String
  content : String
  image_url : String
deriving Repr, DecidableEq

/-- One parsed `<item>` of an RSS feed, as consumed by the per-item loops
of the RSS adapters; each field is `none` when the corresponding tag is
absent (`item.find(tag)` returned `None`). -/
structure RssItem where
  title : Option String
  description : Option String
  link : Option String
  source : Option String
  pubDate : Option String
deriving Repr, DecidableEq

/-- Python truthiness of an optional string (`if x:`): `None` and the
empty string are falsy. -/
def truthyOpt : Option String → Bool
  | none => false
  | some s => s != ""

/-- Python `str.lower()`: lower-case every character (structural
recursion over the character data, so that it evaluates in the
kernel). -/
def pyLower (s : String) : String := String.mk (s.data.map Char.toLower)

/-- Python `str.strip()`: drop leading and trailing whitespace. -/
def pyStrip (s : String) : String :=
  String.mk (((s.data.dropWhile Char.isWhitespace).reverse.dropWhile
    Char.isWhitespace).reverse)

/-- The deduplication key: `article.get('title', '').lower().strip()`
(`news_search_agent.py`, line 487). -/
def normTitle (a : Article) : String := pyStrip (pyLower (a.title.getD ""))

/-- The sort key: `x.get('published_at', '')`
(`news_search_agent.py`, line 102); a missing value compares as `""`. -/
def pubKey (a : Article) : String := a.published_at.getD ""

/-- The descending comparison used by
`results.sort(key=..., reverse=True)`: `a` may precede `b` when the sort
key of `a` is at least that of `b` (lexical string comparison). -/
def pubGe (a b : Article) : Prop := pubKey b ≤ pubKey a

instance : DecidableRel pubGe := fun a b =>
  inferInstanceAs (Decidable (pubKey b ≤ pubKey a))

instance : IsTotal Article pubGe :=
  ⟨fun a b => (le_total (pubKey b) (pubKey a)).imp id id⟩

instance : IsTrans Article pubGe :=
  ⟨fun _ _ _ h h2 => le_trans h2 h⟩

/-- `self.results.sort(key=lambda x: x.get('published_at', ''),
reverse=True)`: Python performs a stable sort descending by key, which a
stable insertion sort with `pubGe` realises (equal keys keep their
original relative order because `orderedInsert` places the newly
inserted, originally-earlier element first). -/
def sortByPublishedDesc (l : List Article) : List Article :=
  List.insertionSort pubGe l

/-- Body of `_remove_duplicates` (`news_search_agent.py`, lines 483-492):
scan in order, keep an article when its normalized title is non-empty
and not yet seen. -/
def removeDuplicatesAux : List Article → List String → List Article
  | [], _ => []
  | a :: rest, seen =>
    let t := normTitle a
    if t ≠ "" ∧ t ∉ seen then a :: removeDuplicatesAux rest (t :: seen)
    else removeDuplicatesAux rest seen

/-- `_remove_duplicates(articles)`: starts with an empty `seen_titles`
set. -/
def removeDuplicates (l : List Article) : List Article :=
  removeDuplicatesAux l []

/-- Bool test that `needle` occurs as a contiguous substring of the
character list (the Python `in` operator on strings). -/
def containsSeq (needle : List Char) : List Char → Bool
  | [] => needle.isEmpty
  | c :: rest => List.isPrefixOf needle (c :: rest) || containsSeq needle rest

/-- Python `needle in hay` for strings. -/
def strIn (needle hay : String) : Bool := containsSeq needle.data hay.data

/-- The query filter shared by the outlet RSS adapters:
keep the item unless `query_lower not in title.lower() and query_lower
not in description.lower()`. -/
def matchesQuery (query title description : String) : Bool :=
  strIn (pyLower query) (pyLower title) || strIn (pyLower query) (pyLower description)

/-- The article built by `_search_google_news` for a kept item
(`news_search_agent.py`, lines 223-232). -/
def mkGoogleArticle (item : RssItem) : Article :=
  { title := some (item.title.getD "No title")
  , description := some (item.description.getD "No description")
  , url := item.link.getD ""
  , source := item.source.getD "Google News"
  , author := "Unknown"
  , published_at := some (item.pubDate.getD "")
  , content := ""
  , image_url := "" }

/-- The article built by the five outlet RSS adapters for a kept item
(identical code in `_search_aljazeera`, `_search_bbc`, `_search_reuters`,
`_search_cnn`, `_search_guardian`, differing only in the two labels). -/
def mkFeedArticle (sourceLabel authorLabel : String) (item : RssItem) : Article :=
  { title := some (item.title.getD "")
  , description := some (item.description.getD "")
  , url := item.link.getD ""
  , source := sourceLabel
  , author := authorLabel
  , published_at := some (item.pubDate.getD "")
  , content := ""
  , image_url := "" }

/-- Per-item loop of `_search_google_news` (lines 214-234).  `pd` embeds
`datetime.strptime(s, rfc1123Format)`, returning `none` exactly when
`strptime` raises; a raise is caught by the per-item `except: continue`,
so the item is dropped.  `clock t` is the value of the `datetime.now()`
call made inside the loop (line 219) for the `t`-th wall-clock read of
the enclosing `search_news` call: the cutoff is recomputed from a fresh
`now` for every item whose timestamp string parsed.  Returns the
articles together with the next read index. -/
def googleLoop (pd : String → Option Int) (clock : Nat → Int) (daysBack : Nat) :
    Nat → List RssItem → List Article × Nat
  | t, [] => ([], t)
  | t, item :: rest =>
    let s := item.pubDate.getD ""
    if s = "" then
      let r := googleLoop pd clock daysBack t rest
      (mkGoogleArticle item :: r.1, r.2)
    else
      match pd s with
      | none => googleLoop pd clock daysBack t rest
      | some d =>
        if d < clock t - 86400 * (daysBack : Int) then
          googleLoop pd clock daysBack (t + 1) rest
        else
          let r := googleLoop pd clock daysBack (t + 1) rest
          (mkGoogleArticle item :: r.1, r.2)

/-- Per-item loop of the five outlet RSS adapters (e.g.
`_search_aljazeera`, lines 254-281): first the query substring filter,
then the same fresh-`now` recency check as `googleLoop`. -/
def feedLoop (sourceLabel authorLabel : String) (pd : String → Option Int)
    (clock : Nat → Int) (daysBack : Nat) (query : String) :
    Nat → List RssItem → List Article × Nat
  | t, [] => ([], t)
  | t, item :: rest =>
    if matchesQuery query (item.title.getD "") (item.description.getD "") then
      let s := item.pubDate.getD ""
      if s = "" then
        let r := feedLoop sourceLabel authorLabel pd clock daysBack query t rest
        (mkFeedArticle sourceLabel authorLabel item :: r.1, r.2)
      else
        match pd s with
        | none => feedLoop sourceLabel authorLabel pd clock daysBack query t rest
        | some d =>
          if d < clock t - 86400 * (daysBack : Int) then
            feedLoop sourceLabel authorLabel pd clock daysBack query (t + 1) rest
          else
            let r := feedLoop sourceLabel authorLabel pd clock daysBack query (t + 1) rest
            (mkFeedArticle sourceLabel authorLabel item :: r.1, r.2)
    else feedLoop sourceLabel authorLabel pd clock daysBack query t rest

/-- The concatenation built by `search_news` (`news_search_agent.py`,
lines 48-96) before deduplication: keyed-API results (only when
`self.api_key` is truthy), then the custom-URL scrape results, then the
six fixed feeds in source order.  `clock 0` is the `datetime.now()` of
line 51 (`to_date`); the keyed adapter receives the `[from_date,
to_date]` window derived from it; `apiFetch` embeds the NewsAPI HTTP
request, `customResults` the per-URL generic-HTML scrape results, and
`customTicks` the number of `datetime.now()` reads the generic scraper
performed (it stamps each kept article with the current time but applies
no temporal filter), so the feed loops continue the read stream at
`1 + customTicks`. -/
def concatResults (clock : Nat → Int) (pd : String → Option Int)
    (apiKey : Option String) (apiFetch : Int → Int → List Article)
    (customResults : List (List Article)) (customTicks : Nat)
    (query : String) (daysBack : Nat)
    (gItems aItems bItems rItems cItems guItems : List RssItem) : List Article :=
  let toDate := clock 0
  let fromDate := toDate - 86400 * (daysBack : Int)
  let apiResults := if truthyOpt apiKey then apiFetch fromDate toDate else []
  let g := googleLoop pd clock daysBack (1 + customTicks) gItems
  let a := feedLoop "Al Jazeera" "Al Jazeera" pd clock daysBack query g.2 aItems
  let b := feedLoop "BBC News" "BBC" pd clock daysBack query a.2 bItems
  let r := feedLoop "Reuters" "Reuters" pd clock daysBack query b.2 rItems
  let c := feedLoop "CNN" "CNN" pd clock daysBack query r.2 cItems
  let gu := feedLoop "The Guardian" "The Guardian" pd clock daysBack query c.2 guItems
  apiResults ++ customResults.flatten ++ g.1 ++ a.1 ++ b.1 ++ r.1 ++ c.1 ++ gu.1

/-- `search_news` (`news_search_agent.py`, lines 30-104): concatenate all
adapter results, remove duplicate titles, sort descending by
`published_at`. -/
def search_news (clock : Nat → Int) (pd : String → Option Int)
    (apiKey : Option String) (apiFetch : Int → Int → List Article)
    (customResults : List (List Article)) (customTicks : Nat)
    (query : String) (daysBack : Nat)
    (gItems aItems bItems rItems cItems guItems : List RssItem) : List Article :=
  sortByPublishedDesc (removeDuplicates
    (concatResults clock pd apiKey apiFetch customResults customTicks
      query daysBack gItems aItems bItems rItems cItems guItems))

/-- Retention rule of an RSS recency filter relative to one fixed cutoff:
an item with an absent or empty timestamp string is kept (the parse is
never attempted); a present but unparseable timestamp string drops the
item (the `strptime` exception is caught by `except: continue`); a
parsed timestamp is kept exactly when it is not strictly older than the
cutoff. -/
def rssKeep (pd : String → Option Int) (cutoff : Int) (item : RssItem) : Bool :=
  let s := item.pubDate.getD ""
  if s = "" then true
  else
    match pd s with
    | none => false
    | some d => decide (cutoff ≤ d)

/-- Modelled from the spec: the Google News adapter as §4.2 step 1
describes temporal filtering — a single `now` for the whole
`search_news` invocation, hence one fixed cutoff for every item. -/
def googleSingleNow (pd : String → Option Int) (cutoff : Int)
    (items : List RssItem) : List Article :=
  (items.filter (rssKeep pd cutoff)).map mkGoogleArticle

/-- Modelled from the spec: an outlet RSS adapter under the same
single-`now` reading — query filter, then the fixed cutoff. -/
def feedSingleNow (sourceLabel authorLabel : String) (pd : String → Option Int)
    (cutoff : Int) (query : String) (items : List RssItem) : List Article :=
  (items.filter (fun i =>
      matchesQuery query (i.title.getD "") (i.description.getD "") &&
      rssKeep pd cutoff i)).map (mkFeedArticle sourceLabel authorLabel)

/-- Modelled from the spec (§4.2, step 1): the whole aggregation with the
date window `[now − days_back, now]` computed once and that same single
`now` used by the keyed-API window and by every fixed-feed recency
cutoff. -/
def searchNewsSingleNow (now : Int) (pd : String → Option Int)
    (apiKey : Option String) (apiFetch : Int → Int → List Article)
    (customResults : List (List Article)) (query : String) (daysBack : Nat)
    (gItems aItems bItems rItems cItems guItems : List RssItem) : List Article :=
  let cutoff := now - 86400 * (daysBack : Int)
  let apiResults := if truthyOpt apiKey then apiFetch cutoff now else []
  sortByPublishedDesc (removeDuplicates
    (apiResults ++ customResults.flatten
      ++ googleSingleNow pd cutoff gItems
      ++ feedSingleNow "Al Jazeera" "Al Jazeera" pd cutoff query aItems
      ++ feedSingleNow "BBC News" "BBC" pd cutoff query bItems
      ++ feedSingleNow "Reuters" "Reuters" pd cutoff query rItems
      ++ feedSingleNow "CNN" "CNN" pd cutoff query cItems
      ++ feedSingleNow "The Guardian" "The Guardian" pd cutoff query guItems))

/-- The type of the external generative call (`model.generate_content`):
given the prompt it returns the response text, or the exception message
on failure. -/
abbrev GenCall := String → Except String String

/-- `GeminiSummarizer` (`gemini_summarizer.py`): after `__init__`,
`self.model` is either the initialized client or `None`. -/
structure GeminiSummarizer where
  model : Option GenCall

/-- `GeminiSummarizer.__init__` (`gemini_summarizer.py`, lines 9-27):
raises `ValueError` (modelled as `Except.error`) when the key is falsy;
otherwise tries to configure the client (`configure` embeds
`genai.configure` plus `GenerativeModel('gemini-2.5-flash')`), and on an
exception degrades to `model = None`. -/
def geminiInit (apiKey : Option String)
    (configure : String → Except String GenCall) : Except String GeminiSummarizer :=
  if truthyOpt apiKey then
    match configure (apiKey.getD "") with
    | Except.ok m => Except.ok ⟨some m⟩
    | Except.error _ => Except.ok ⟨none⟩
  else Except.error "Google API key for Gemini is required."

/-- Fixed message returned when `self.model` is `None`
(`gemini_summarizer.py`, line 41). -/
def unavailableMsg : String :=
  "Summary is unavailable because the Gemini model could not be initialized."

/-- Fixed message for an empty article list (line 44). -/
def noArticlesMsg : String := "No articles were provided to summarize."

/-- Fixed message when the combined block is empty after stripping
(line 59). -/
def insufficientMsg : String :=
  "Could not extract sufficient text from the articles to generate a summary."

/-- The text contributed by the article at (0-based) position `i` of the
truncated list (`gemini_summarizer.py`, lines 50-56): nothing when the
description is falsy (`None` or empty — note the title is dropped too);
otherwise the `Article i+1 / Title / Description` block with the
markup-stripped description.  `strip` embeds
`BeautifulSoup(description, "html.parser").get_text()`. -/
def articleChunk (strip : String → String) (i : Nat) (a : Article) : String :=
  let title := a.title.getD "No title"
  match a.description with
  | none => ""
  | some d =>
    if d = "" then ""
    else
      "Article " ++ toString (i + 1) ++ ":\nTitle: " ++ title ++
        "\nDescription: " ++ strip d ++ "\n\n"

/-- The combined `articles_text` accumulation over
`enumerate(articles[:20])`, starting at index `i`. -/
def articlesTextAux (strip : String → String) : Nat → List Article → String
  | _, [] => ""
  | i, a :: rest => articleChunk strip i a ++ articlesTextAux strip (i + 1) rest

/-- The prompt template of `summarize` (`gemini_summarizer.py`,
lines 62-72). -/
def summaryInstruction (query articlesText : String) : String :=
  "\n        You are an expert news analyst. Based on the following news articles about \""
    ++ query
    ++ "\", please provide a concise, neutral, and easy-to-read summary.\n        Synthesize the main points and key developments into a single, coherent paragraph. Do not list the articles or cite sources in your summary. Just provide the summary itself.\n\n        Here are the articles to analyze:\n        ---\n        "
    ++ articlesText
    ++ "\n        ---\n\n        Summary:\n        "

/-- `GeminiSummarizer.summarize` (`gemini_summarizer.py`, lines 29-82). -/
def summarize (s : GeminiSummarizer) (strip : String → String)
    (articles : List Article) (query : String) : String :=
  match s.model with
  | none => unavailableMsg
  | some gen =>
    if articles = [] then noArticlesMsg
    else
      let articlesText := articlesTextAux strip 0 (articles.take 20)
      if pyStrip articlesText = "" then insufficientMsg
      else
        match gen (summaryInstruction query articlesText) with
        | Except.ok t => t
        | Except.error e =>
          "An error occurred while generating the AI summary: " ++ e

/-- Modelled from the claim's words, for comparison with
`articlesTextAux`: a combined block in which each of the first
`min(20, length)` articles contributes its title plus its
markup-stripped description (same per-article template, no article
skipped). -/
def claimArticlesText (strip : String → String) (articles : List Article) : String :=
  ((articles.take 20).enumFrom 0).foldr
    (fun p acc =>
      "Article " ++ toString (p.1 + 1) ++ ":\nTitle: " ++ (p.2.title.getD "No title") ++
        "\nDescription: " ++ strip (p.2.description.getD "") ++ "\n\n" ++ acc) ""

/-- `new_news` of `NotificationAgent._delayed_search`
(`notification_agent.py`, lines 31-32): the follow-up articles whose
`url` is not among the baseline urls. -/
def newNews (lastResults newResults : List Article) : List Article :=
  newResults.filter (fun a => decide (a.url ∉ lastResults.map (fun b => b.url)))

/-- Lines 33-34: the notification event (query payload attached by
`notify_browser`) is emitted exactly when `new_news` is non-empty, and
carries `new_news`. -/
def notifyEvent (lastResults newResults : List Article) : Option (List Article) :=
  let nn := newNews lastResults newResults
  if nn ≠ [] then some nn else none

/-- The aggregator as the scheduler sees it: `search_news(query,
days_back=..., custom_urls=...)`. -/
abbrev SearchFn := String → Nat → Option (List String) → List Article

/-- One entry of `self.scheduled_searches`
(`notification_agent.py`, lines 16-22). -/
structure ScheduledSearch where
  query : String
  days_back : Nat
  custom_urls : Option (List String)
  last_results : List Article
  interval_minutes : Nat
deriving Repr

/-- The deferred unit of work registered by `schedule_search`: a thread
that will run `_delayed_search(idx)`. -/
inductive DeferredTask
  | delayedSearch (idx : Nat)
deriving Repr, DecidableEq

/-- `NotificationAgent.schedule_search` (`notification_agent.py`,
lines 13-23): runs the baseline search synchronously (`run1` is the
fresh `NewsSearchAgent`'s `search_news`), appends the record, and starts
exactly one thread for `_delayed_search` on the new index; the thread
first sleeps `interval_minutes * 60` seconds.  Returns the new registry
and the list of registered deferred tasks with their delay in
seconds. -/
def schedule_search (st : List ScheduledSearch) (run1 : SearchFn)
    (query : String) (daysBack : Nat) (customUrls : Option (List String))
    (intervalMinutes : Nat) :
    List ScheduledSearch × List (DeferredTask × Nat) :=
  let baseline := run1 query daysBack customUrls
  (st ++ [⟨query, daysBack, customUrls, baseline, intervalMinutes⟩],
    [(DeferredTask.delayedSearch st.length, intervalMinutes * 60)])

/-- `NotificationAgent._delayed_search` (`notification_agent.py`,
lines 25-34) after the sleep: one follow-up search (`run2`) with the
stored parameters, the url diff against the stored baseline, and the
possible notification event (query, new articles).  The second component
is the list of further deferred tasks it registers — always `[]`: the
scheduled search is terminal after its single follow-up. -/
def runDeferred (st : List ScheduledSearch) (run2 : SearchFn) :
    DeferredTask → Option (String × List Article) × List (DeferredTask × Nat)
  | DeferredTask.delayedSearch idx =>
    match st[idx]? with
    | none => (none, [])
    | some info =>
      let newResults := run2 info.query info.days_back info.custom_urls
      ((notifyEvent info.last_results newResults).map (fun l => (info.query, l)), [])

/-- Every article kept by `removeDuplicatesAux` has a non-empty
normalized title that was not in the `seen` set on entry. -/
theorem mem_removeDuplicatesAux : ∀ (l : List Article) (seen : List String) (a : Article),
    a ∈ removeDuplicatesAux l seen → normTitle a ≠ "" ∧ normTitle a ∉ seen := by
  intro l
  induction l with
  | nil => intro seen a h; simp [removeDuplicatesAux] at h
  | cons x rest ih =>
    intro seen a h
    simp only [removeDuplicatesAux] at h
    by_cases hc : normTitle x ≠ "" ∧ normTitle x ∉ seen
    · rw [if_pos hc] at h
      rcases List.mem_cons.mp h with rfl | hmem
      · exact ⟨hc.1, hc.2⟩
      · have hrec := ih _ _ hmem
        exact ⟨hrec.1, fun hs => hrec.2 (List.mem_cons_of_mem _ hs)⟩
    · rw [if_neg hc] at h
      exact ih _ _ h

/-- The output of `removeDuplicatesAux` has pairwise distinct normalized
titles. -/
theorem pairwise_removeDuplicatesAux : ∀ (l : List Article) (seen : List String),
    (removeDuplicatesAux l seen).Pairwise (fun a b => normTitle a ≠ normTitle b) := by
  intro l
  induction l with
  | nil => intro seen; simp [removeDuplicatesAux]
  | cons x rest ih =>
    intro seen
    simp only [removeDuplicatesAux]
    by_cases hc : normTitle x ≠ "" ∧ normTitle x ∉ seen
    · rw [if_pos hc]
      refine List.Pairwise.cons ?_ (ih _)
      intro b hb he
      exact (mem_removeDuplicatesAux _ _ _ hb).2 (he ▸ List.mem_cons_self _ _)
    · rw [if_neg hc]
      exact ih _

/-- Every article kept by `removeDuplicatesAux` is the first article of
the scanned list bearing its normalized title. -/
theorem firstOcc_removeDuplicatesAux : ∀ (l : List Article) (seen : List String) (a : Article),
    a ∈ removeDuplicatesAux l seen →
    ∃ l1 l2, l = l1 ++ a :: l2 ∧ ∀ b ∈ l1, normTitle b ≠ normTitle a := by
  intro l
  induction l with
  | nil => intro seen a h; simp [removeDuplicatesAux] at h
  | cons x rest ih =>
    intro seen a h
    simp only [removeDuplicatesAux] at h
    by_cases hc : normTitle x ≠ "" ∧ normTitle x ∉ seen
    · rw [if_pos hc] at h
      rcases List.mem_cons.mp h with rfl | hmem
      · exact ⟨[], rest, rfl, by simp⟩
      · obtain ⟨l1, l2, heq, hl1⟩ := ih _ _ hmem
        have hne : normTitle x ≠ normTitle a := fun he =>
          (mem_removeDuplicatesAux _ _ _ hmem).2 (he ▸ List.mem_cons_self _ _)
        refine ⟨x :: l1, l2, by rw [List.cons_append, heq], ?_⟩
        intro b hb
        rcases List.mem_cons.mp hb with rfl | hb2
        · exact hne
        · exact hl1 b hb2
    · rw [if_neg hc] at h
      obtain ⟨l1, l2, heq, hl1⟩ := ih _ _ h
      have ha := mem_removeDuplicatesAux _ _ _ h
      have hne : normTitle x ≠ normTitle a := by
        rcases not_and_or.mp hc with h1 | h2
        · have hx : normTitle x = "" := not_not.mp h1
          rw [hx]
          exact fun he => ha.1 he.symm
        · have hx : normTitle x ∈ seen := not_not.mp h2
          exact fun he => ha.2 (he ▸ hx)
      refine ⟨x :: l1, l2, by rw [List.cons_append, heq], ?_⟩
      intro b hb
      rcases List.mem_cons.mp hb with rfl | hb2
      · exact hne
      · exact hl1 b hb2

/-- The final sort is a permutation of the deduplicated list. -/
theorem sortByPublishedDesc_perm (l : List Article) : List.Perm (sortByPublishedDesc l) l :=
  List.perm_insertionSort pubGe l

/-- A concrete article used to instantiate the aggregation theorems. -/
def sampleArticle : Article :=
  { title := some "Sample Headline"
  , description := some "body"
  , url := "https://example.org/1"
  , source := "Example"
  , author := "Unknown"
  , published_at := some "2024-01-01T00:00:00Z"
  , content := ""
  , image_url := "" }

/-- A concrete article whose title is whitespace-only, so its normalized
title is empty. -/
def blankTitleArticle : Article :=
  { title := some "   "
  , description := some "body"
  , url := "https://example.org/2"
  , source := "Example"
  , author := "Unknown"
  , published_at := some "2024-01-02T00:00:00Z"
  , content := ""
  , image_url := "" }

/-- A concrete frozen clock. -/
def wClock : Nat → Int := fun _ => 0

/-- A concrete timestamp parser that fails on every string. -/
def wPd : String → Option Int := fun _ => none

/-- A concrete keyed-API fetch returning one article. -/
def wApiFetch : Int → Int → List Article := fun _ _ => [sampleArticle]

/-- A concrete RSS item with no `pubDate` tag (kept by every recency
filter) and a title. -/
def wItemNoDate : RssItem :=
  { title := some "Feed Headline"
  , description := some "feed body"
  , link := some "https://example.org/3"
  , source := none
  , pubDate := none }

/-- C1: in every `search_news` result the lower-cased, trimmed titles are
pairwise distinct, and each returned article is the first occurrence of
its normalized title in the adapter concatenation order (keyed-API
results first, then custom-URL results, then the fixed feeds, each in
its own return order). -/
theorem search_news_title_dedup_first (clock : Nat → Int) (pd : String → Option Int)
    (apiKey : Option String) (apiFetch : Int → Int → List Article)
    (customResults : List (List Article)) (customTicks : Nat)
    (query : String) (daysBack : Nat)
    (gItems aItems bItems rItems cItems guItems : List RssItem) :
    (search_news clock pd apiKey apiFetch customResults customTicks
        query daysBack gItems aItems bItems rItems cItems guItems).Pairwise
      (fun a b => normTitle a ≠ normTitle b)
    ∧ ∀ a ∈ search_news clock pd apiKey apiFetch customResults customTicks
        query daysBack gItems aItems bItems rItems cItems guItems,
      ∃ l1 l2, concatResults clock pd apiKey apiFetch customResults customTicks
          query daysBack gItems aItems bItems rItems cItems guItems = l1 ++ a :: l2
        ∧ ∀ b ∈ l1, normTitle b ≠ normTitle a := by
  constructor
  · exact (pairwise_removeDuplicatesAux _ []).perm
      (sortByPublishedDesc_perm _).symm (fun h he => h he.symm)
  · intro a ha
    exact firstOcc_removeDuplicatesAux _ [] a
      ((sortByPublishedDesc_perm _).mem_iff.mp ha)

/-- C1 witness: at a concrete instantiation the single keyed-API article
is returned and is the first occurrence of its normalized title. -/
theorem search_news_title_dedup_first_witness :
    ∃ l1 l2, concatResults wClock wPd (some "k") wApiFetch [] 0 "" 1 [] [] [] [] [] []
        = l1 ++ sampleArticle :: l2
      ∧ ∀ b ∈ l1, normTitle b ≠ normTitle sampleArticle :=
  (search_news_title_dedup_first wClock wPd (some "k") wApiFetch [] 0 "" 1
    [] [] [] [] [] []).2 sampleArticle (by decide)

/-- C2: every `search_news` result is sorted non-increasing by the raw
`published_at` string under lexical string comparison, an article with a
missing `published_at` comparing as the empty string (`pubKey`). -/
theorem search_news_sorted_desc (clock : Nat → Int) (pd : String → Option Int)
    (apiKey : Option String) (apiFetch : Int → Int → List Article)
    (customResults : List (List Article)) (customTicks : Nat)
    (query : String) (daysBack : Nat)
    (gItems aItems bItems rItems cItems guItems : List RssItem) :
    (search_news clock pd apiKey apiFetch customResults customTicks
        query daysBack gItems aItems bItems rItems cItems guItems).Pairwise
      (fun a b => pubKey b ≤ pubKey a) :=
  List.sorted_insertionSort pubGe
    (removeDuplicates (concatResults clock pd apiKey apiFetch customResults
      customTicks query daysBack gItems aItems bItems rItems cItems guItems))

/-- C7: when the configured API key is absent (missing or empty, i.e.
falsy), the keyed-API adapter contributes zero articles: the result is
the same as if the keyed adapter had returned nothing, whatever
`apiFetch` would have produced. -/
theorem search_news_without_api_key (clock : Nat → Int) (pd : String → Option Int)
    (apiKey : Option String) (apiFetch : Int → Int → List Article)
    (customResults : List (List Article)) (customTicks : Nat)
    (query : String) (daysBack : Nat)
    (gItems aItems bItems rItems cItems guItems : List RssItem)
    (h : truthyOpt apiKey = false) :
    search_news clock pd apiKey apiFetch customResults customTicks
        query daysBack gItems aItems bItems rItems cItems guItems
      = search_news clock pd apiKey (fun _ _ => []) customResults customTicks
        query daysBack gItems aItems bItems rItems cItems guItems := by
  simp [search_news, concatResults, h]

/-- C7 witness: with no API key but one item in the Google feed, the
keyed adapter's would-be article does not appear and the feed result is
still returned. -/
theorem search_news_without_api_key_witness :
    search_news wClock wPd none wApiFetch [] 0 "" 1 [wItemNoDate] [] [] [] [] []
      = search_news wClock wPd none (fun _ _ => []) [] 0 "" 1 [wItemNoDate] [] [] [] [] [] :=
  search_news_without_api_key wClock wPd none wApiFetch [] 0 "" 1
    [wItemNoDate] [] [] [] [] [] rfl

/-- C10: every article in a `search_news` result has a non-empty
normalized (lower-cased, trimmed) title, and an article whose title is
missing, empty or whitespace-only is removed by `removeDuplicates`
even when it is the first or only occurrence of the empty title. -/
theorem search_news_nonempty_titles (clock : Nat → Int) (pd : String → Option Int)
    (apiKey : Option String) (apiFetch : Int → Int → List Article)
    (customResults : List (List Article)) (customTicks : Nat)
    (query : String) (daysBack : Nat)
    (gItems aItems bItems rItems cItems guItems : List RssItem) :
    (∀ a ∈ search_news clock pd apiKey apiFetch customResults customTicks
        query daysBack gItems aItems bItems rItems cItems guItems, normTitle a ≠ "")
    ∧ ∀ (l : List Article) (a : Article), normTitle a = "" → a ∉ removeDuplicates l := by
  constructor
  · intro a ha
    exact (mem_removeDuplicatesAux _ [] a
      ((sortByPublishedDesc_perm _).mem_iff.mp ha)).1
  · intro l a he hmem
    exact (mem_removeDuplicatesAux _ [] a hmem).1 he

/-- C10 witness: the sample article's normalized title is non-empty, and
a whitespace-only-titled article is dropped even as the only occurrence. -/
theorem search_news_nonempty_titles_witness :
    normTitle sampleArticle ≠ ""
    ∧ blankTitleArticle ∉ removeDuplicates [blankTitleArticle] :=
  ⟨(search_news_nonempty_titles wClock wPd (some "k") wApiFetch [] 0 "" 1
      [] [] [] [] [] []).1 sampleArticle (by decide),
   (search_news_nonempty_titles wClock wPd (some "k") wApiFetch [] 0 "" 1
      [] [] [] [] [] []).2 [blankTitleArticle] blankTitleArticle (by decide)⟩

/-- Membership characterization of the url diff. -/
theorem mem_newNews (old new : List Article) (a : Article) :
    a ∈ newNews old new ↔ a ∈ new ∧ a.url ∉ old.map (fun b => b.url) := by
  simp [newNews]

/-- C5: the notification event is emitted iff some follow-up article has
a url outside the baseline urls, and when emitted it carries exactly the
follow-up articles whose url is not among the baseline urls (identity
key is `url`, not title). -/
theorem notify_diff_by_url (old new : List Article) :
    ((notifyEvent old new).isSome ↔ ∃ a ∈ new, a.url ∉ old.map (fun b => b.url))
    ∧ ∀ l, notifyEvent old new = some l →
        ∀ a, (a ∈ l ↔ a ∈ new ∧ a.url ∉ old.map (fun b => b.url)) := by
  constructor
  · constructor
    · intro h
      have hne : newNews old new ≠ [] := by
        by_contra he
        simp [notifyEvent, he] at h
      obtain ⟨a, ha⟩ := List.exists_mem_of_ne_nil _ hne
      exact ⟨a, ((mem_newNews old new a).mp ha).1, ((mem_newNews old new a).mp ha).2⟩
    · intro ⟨a, ha, hurl⟩
      have hmem : a ∈ newNews old new := (mem_newNews old new a).mpr ⟨ha, hurl⟩
      have hne : newNews old new ≠ [] := List.ne_nil_of_mem hmem
      simp [notifyEvent, hne]
  · intro l hl a
    have hll : l = newNews old new := by
      by_cases hne : newNews old new = []
      · simp [notifyEvent, hne] at hl
      · simp only [notifyEvent, if_pos hne] at hl
        exact (Option.some.injEq _ _ ▸ hl).symm
    rw [hll]
    exact mem_newNews old new a

/-- Baseline article A for the C5 witness. -/
def baseA : Article :=
  { title := some "A", description := some "a", url := "https://n/a"
  , source := "s", author := "x", published_at := some "1", content := "", image_url := "" }

/-- Baseline article B for the C5 witness. -/
def baseB : Article :=
  { title := some "B", description := some "b", url := "https://n/b"
  , source := "s", author := "x", published_at := some "2", content := "", image_url := "" }

/-- New article C for the C5 witness. -/
def newC : Article :=
  { title := some "C", description := some "c", url := "https://n/c"
  , source := "s", author := "x", published_at := some "3", content := "", image_url := "" }

/-- C5 witness: with baseline {A, B} and follow-up {A, B, C} (by url) the
event carries exactly {C}. -/
theorem notify_diff_by_url_witness :
    newC ∈ ([newC] : List Article)
      ↔ newC ∈ [baseA, baseB, newC] ∧ newC.url ∉ [baseA, baseB].map (fun b => b.url) :=
  (notify_diff_by_url [baseA, baseB] [baseA, baseB, newC]).2 [newC] (by decide) newC

/-- C8: `schedule_search` runs the baseline synchronously inside the
call and stores it, registers exactly one deferred follow-up with delay
`interval_minutes * 60` seconds, and running that follow-up performs one
search with the identical stored `query`, `days_back` and `custom_urls`,
computes the diff-based event, and registers no further deferred work:
the scheduled search is terminal after its single follow-up
(Pending to Done, no re-scheduling). -/
theorem schedule_search_lifecycle (st : List ScheduledSearch) (run1 run2 : SearchFn)
    (query : String) (daysBack : Nat) (customUrls : Option (List String))
    (intervalMinutes : Nat) :
    (schedule_search st run1 query daysBack customUrls intervalMinutes).1
        = st ++ [⟨query, daysBack, customUrls, run1 query daysBack customUrls,
            intervalMinutes⟩]
    ∧ (schedule_search st run1 query daysBack customUrls intervalMinutes).2
        = [(DeferredTask.delayedSearch st.length, intervalMinutes * 60)]
    ∧ runDeferred (schedule_search st run1 query daysBack customUrls intervalMinutes).1
        run2 (DeferredTask.delayedSearch st.length)
      = ((notifyEvent (run1 query daysBack customUrls)
            (run2 query daysBack customUrls)).map (fun l => (query, l)), []) := by
  refine ⟨rfl, rfl, ?_⟩
  simp only [schedule_search, runDeferred, List.getElem?_concat_length]

/-- A concrete successful client configuration for the C6 counterexample. -/
def wConfigure : String → Except String GenCall := fun _ => Except.ok (fun _ => Except.ok "ok")

/-- C6 counterexample: constructing the summarizer with an absent
(`None`) or empty generative-text credential raises `ValueError`
(modelled as `Except.error`) instead of degrading gracefully — even when
the underlying client could have been configured — so the claimed
graceful initialization fails at this concrete input. -/
theorem gemini_init_absent_key_raises :
    geminiInit none wConfigure = Except.error "Google API key for Gemini is required."
    ∧ geminiInit (some "") wConfigure
        = Except.error "Google API key for Gemini is required." := by
  exact ⟨rfl, rfl⟩

/-- C6 amended: an absent or empty credential makes the constructor
raise `ValueError`; graceful degradation happens only when a truthy
credential is supplied but the client fails to initialize — then
`model` is `None` and every subsequent `summarize` call returns the
fixed unavailability message without attempting a call to the external
service (the result does not depend on any generative call at all). -/
theorem gemini_init_degrade (apiKey : Option String)
    (configure : String → Except String GenCall) :
    (truthyOpt apiKey = false →
      geminiInit apiKey configure = Except.error "Google API key for Gemini is required.")
    ∧ (∀ e, truthyOpt apiKey = true → configure (apiKey.getD "") = Except.error e →
        geminiInit apiKey configure = Except.ok ⟨none⟩)
    ∧ (∀ (strip : String → String) (articles : List Article) (query : String),
        summarize ⟨none⟩ strip articles query = unavailableMsg) := by
  refine ⟨fun h => ?_, fun e ht he => ?_, fun strip articles query => rfl⟩
  · simp [geminiInit, h]
  · simp [geminiInit, ht, he]

/-- A concrete failing client configuration. -/
def wConfigureFail : String → Except String GenCall := fun _ => Except.error "quota"

/-- C6 witness: with a truthy key and a failing client configuration the
constructor degrades to `model = None`, and `summarize` on that object
returns the unavailability message. -/
theorem gemini_init_degrade_witness :
    geminiInit (some "k") wConfigureFail = Except.ok ⟨none⟩
    ∧ summarize ⟨none⟩ (fun s => s) [sampleArticle] "q" = unavailableMsg :=
  ⟨(gemini_init_degrade (some "k") wConfigureFail).2.1 "quota" rfl rfl,
   (gemini_init_degrade (some "k") wConfigureFail).2.2 (fun s => s) [sampleArticle] "q"⟩

/-- A concrete article with a title but an empty description — falsy in
the summarizer's `if description:` check. -/
def emptyDescArticle : Article :=
  { title := some "T"
  , description := some ""
  , url := "https://example.org/4"
  , source := "Example"
  , author := "Unknown"
  , published_at := some "2024-01-03T00:00:00Z"
  , content := ""
  , image_url := "" }

/-- A concrete echoing generative call. -/
def wGen : GenCall := fun s => Except.ok s

/-- C4 counterexample: an article among the first 20 whose description
is empty contributes nothing to the combined block — its title is
dropped too, contrary to the claim that each of the first `min(20, n)`
articles contributes its title plus stripped description
(`claimArticlesText`); observably, `summarize` then returns the fixed
insufficient-text message although the claimed block is non-empty. -/
theorem summarize_skips_falsy_description :
    articlesTextAux (fun s => s) 0 [emptyDescArticle]
        ≠ claimArticlesText (fun s => s) [emptyDescArticle]
    ∧ claimArticlesText (fun s => s) [emptyDescArticle] ≠ ""
    ∧ summarize ⟨some wGen⟩ (fun s => s) [emptyDescArticle] "q" = insufficientMsg := by
  exact ⟨by decide, by decide, rfl⟩

/-- The combined block is the fold of the per-position contributions
(`articleChunk`), enumerating from the given start index. -/
theorem articlesTextAux_enumFrom (strip : String → String) :
    ∀ (l : List Article) (i : Nat),
      articlesTextAux strip i l
        = (l.enumFrom i).foldr (fun p acc => articleChunk strip p.1 p.2 ++ acc) "" := by
  intro l
  induction l with
  | nil => intro i; rfl
  | cons a rest ih => intro i; simp [articlesTextAux, ih]

/-- C4 amended: `summarize` on an empty list returns the fixed
no-articles message; on a non-empty list the output depends only on the
first `min(20, length)` articles in supplied order (articles past the
first 20 have no influence); the combined block is built position by
position, where an article with a truthy description contributes its
title plus markup-stripped description and an article with a `None` or
empty description contributes nothing (its title included, though it
still advances the article numbering); and if the combined block is
empty after stripping, the fixed insufficient-text message is
returned. -/
theorem summarize_contract (g : GenCall) (strip : String → String)
    (articles : List Article) (q : String) :
    summarize ⟨some g⟩ strip [] q = noArticlesMsg
    ∧ (articles ≠ [] →
        summarize ⟨some g⟩ strip articles q
          = summarize ⟨some g⟩ strip (articles.take 20) q)
    ∧ articlesTextAux strip 0 (articles.take 20)
        = ((articles.take 20).enumFrom 0).foldr
            (fun p acc => articleChunk strip p.1 p.2 ++ acc) ""
    ∧ (articles ≠ [] →
        pyStrip (articlesTextAux strip 0 (articles.take 20)) = "" →
        summarize ⟨some g⟩ strip articles q = insufficientMsg) := by
  refine ⟨rfl, fun h => ?_, articlesTextAux_enumFrom strip _ 0, fun h he => ?_⟩
  · have ht : articles.take 20 ≠ [] := by
      simp [List.take_eq_nil_iff, h]
    simp only [summarize, if_neg h, if_neg ht, List.take_take, Nat.min_self]
  · simp only [summarize, if_neg h, he, if_pos rfl]
    simp

/-- C4 witness: the first-20 truncation applied at a concrete one-element
list, and the insufficient-text path applied at the concrete
empty-description article. -/
theorem summarize_contract_witness :
    summarize ⟨some wGen⟩ (fun s => s) [sampleArticle] "q"
        = summarize ⟨some wGen⟩ (fun s => s) ([sampleArticle].take 20) "q"
    ∧ summarize ⟨some wGen⟩ (fun s => s) [emptyDescArticle] "q" = insufficientMsg :=
  ⟨(summarize_contract wGen (fun s => s) [sampleArticle] "q").2.1 (by decide),
   (summarize_contract wGen (fun s => s) [emptyDescArticle] "q").2.2.2
     (by decide) (by decide)⟩

/-- Under a clock that never advances, the Google News per-item loop is
exactly the single-cutoff filter-and-map. -/
theorem googleLoop_fst_const (pd : String → Option Int) (T : Int) (daysBack : Nat) :
    ∀ (t : Nat) (items : List RssItem),
      (googleLoop pd (fun _ => T) daysBack t items).1
        = googleSingleNow pd (T - 86400 * (daysBack : Int)) items := by
  intro t items
  induction items generalizing t with
  | nil => rfl
  | cons item rest ih =>
    by_cases hs : item.pubDate.getD "" = ""
    · simp [googleLoop, googleSingleNow, rssKeep, hs, List.filter_cons, ih]
    · cases hpd : pd (item.pubDate.getD "") with
      | none =>
        simp [googleLoop, googleSingleNow, rssKeep, hs, hpd, List.filter_cons, ih]
      | some d =>
        by_cases hlt : d < T - 86400 * (daysBack : Int)
        · have hle : ¬ T - 86400 * (daysBack : Int) ≤ d := not_le.mpr hlt
          simp [googleLoop, googleSingleNow, rssKeep, hs, hpd, hlt, hle,
            List.filter_cons, ih]
        · have hle : T - 86400 * (daysBack : Int) ≤ d := not_lt.mp hlt
          simp [googleLoop, googleSingleNow, rssKeep, hs, hpd, hlt, hle,
            List.filter_cons, ih]

/-- Under a clock that never advances, an outlet per-item loop is exactly
the query filter plus the single-cutoff filter, then the map. -/
theorem feedLoop_fst_const (sourceLabel authorLabel : String) (pd : String → Option Int)
    (T : Int) (daysBack : Nat) (query : String) :
    ∀ (t : Nat) (items : List RssItem),
      (feedLoop sourceLabel authorLabel pd (fun _ => T) daysBack query t items).1
        = feedSingleNow sourceLabel authorLabel pd (T - 86400 * (daysBack : Int))
            query items := by
  intro t items
  induction items generalizing t with
  | nil => rfl
  | cons item rest ih =>
    by_cases hm : matchesQuery query (item.title.getD "") (item.description.getD "") = true
    · by_cases hs : item.pubDate.getD "" = ""
      · simp [feedLoop, feedSingleNow, rssKeep, hm, hs, List.filter_cons, ih]
      · cases hpd : pd (item.pubDate.getD "") with
        | none =>
          simp [feedLoop, feedSingleNow, rssKeep, hm, hs, hpd, List.filter_cons, ih]
        | some d =>
          by_cases hlt : d < T - 86400 * (daysBack : Int)
          · have hle : ¬ T ≤ d + 86400 * (daysBack : Int) := by omega
            simp [feedLoop, feedSingleNow, rssKeep, hm, hs, hpd, hlt, hle,
              List.filter_cons, ih]
          · have hle : T ≤ d + 86400 * (daysBack : Int) := by omega
            simp [feedLoop, feedSingleNow, rssKeep, hm, hs, hpd, hlt, hle,
              List.filter_cons, ih]
    · have hm2 : matchesQuery query (item.title.getD "") (item.description.getD "") = false :=
        Bool.not_eq_true _ ▸ eq_false_of_ne_true hm
      simp [feedLoop, feedSingleNow, hm2, List.filter_cons, ih]

/-- A concrete RSS item whose `pubDate` text is present but cannot be
parsed by the timestamp parser. -/
def badDateItem : RssItem :=
  { title := some "Bad Date Headline"
  , description := some "feed body"
  , link := some "https://example.org/5"
  , source := none
  , pubDate := some "not a date" }

/-- C3 counterexample: a feed item whose publication-timestamp string is
present but unparseable is discarded, not retained — the `strptime`
exception is caught by the per-item `except: continue` of both the
Google News loop and the outlet loops, so the adapter result is empty
at this concrete input. -/
theorem rss_unparseable_timestamp_dropped :
    badDateItem.pubDate = some "not a date"
    ∧ wPd "not a date" = none
    ∧ (googleLoop wPd wClock 1 0 [badDateItem]).1 = []
    ∧ (feedLoop "Al Jazeera" "Al Jazeera" wPd wClock 1 "" 0 [badDateItem]).1 = [] := by
  exact ⟨rfl, rfl, by decide, by decide⟩

/-- C3 amended: under one fixed `now` the recency filter of every
fixed-feed adapter keeps an item with an absent or empty timestamp
string (fail-open), discards an item whose timestamp string is present
but unparseable (the per-item exception handler skips it), and drops a
parseable item exactly when it is strictly older than `now − days_back`
— the retention rule `rssKeep`, applied after the query filter for the
outlet adapters. -/
theorem rss_recency_retention (pd : String → Option Int) (T : Int) (daysBack : Nat)
    (sourceLabel authorLabel query : String) (t : Nat) (items : List RssItem) :
    (googleLoop pd (fun _ => T) daysBack t items).1
      = (items.filter (rssKeep pd (T - 86400 * (daysBack : Int)))).map mkGoogleArticle
    ∧ (feedLoop sourceLabel authorLabel pd (fun _ => T) daysBack query t items).1
      = (items.filter (fun i =>
            matchesQuery query (i.title.getD "") (i.description.getD "")
              && rssKeep pd (T - 86400 * (daysBack : Int)) i)).map
          (mkFeedArticle sourceLabel authorLabel)
    ∧ (∀ i : RssItem, i.pubDate.getD "" = "" →
        rssKeep pd (T - 86400 * (daysBack : Int)) i = true)
    ∧ (∀ (i : RssItem) (s : String), i.pubDate = some s → s ≠ "" → pd s = none →
        rssKeep pd (T - 86400 * (daysBack : Int)) i = false) := by
  refine ⟨googleLoop_fst_const pd T daysBack t items,
    feedLoop_fst_const sourceLabel authorLabel pd T daysBack query t items,
    fun i hi => by simp [rssKeep, hi], fun i s hi hs hpd => ?_⟩
  simp [rssKeep, hi, hs, hpd]

/-- C3 witness: at one fixed `now`, a dateless item is kept while the
unparseable-date item is dropped. -/
theorem rss_recency_retention_witness :
    (googleLoop wPd (fun _ => (0 : Int)) 1 0 [wItemNoDate, badDateItem]).1
        = [mkGoogleArticle wItemNoDate]
    ∧ rssKeep wPd (0 - 86400 * ((1 : Nat) : Int)) wItemNoDate = true
    ∧ rssKeep wPd (0 - 86400 * ((1 : Nat) : Int)) badDateItem = false :=
  ⟨((rss_recency_retention wPd 0 1 "s" "a" "" 0 [wItemNoDate, badDateItem]).1).trans
      (by decide),
   (rss_recency_retention wPd 0 1 "s" "a" "" 0 []).2.2.1 wItemNoDate rfl,
   (rss_recency_retention wPd 0 1 "s" "a" "" 0 []).2.2.2 badDateItem "not a date"
     rfl (by decide) rfl⟩

/-- A concrete clock that advances by two days between the initial
`to_date` reading and all later readings. -/
def movingClock : Nat → Int := fun n => if n = 0 then 0 else 172800

/-- A concrete timestamp parser recognising only the string "X", as the
instant 0. -/
def xPd : String → Option Int := fun s => if s = "X" then some 0 else none

/-- A concrete feed item published exactly at the initial `now`. -/
def boundaryItem : RssItem :=
  { title := some "Boundary Headline"
  , description := some "feed body"
  , link := some "https://example.org/6"
  , source := none
  , pubDate := some "X" }

/-- C9 counterexample: with a clock that advances during the call, the
result of `search_news` differs from the single-`now` model seeded with
the initial reading (`clock 0`): the fixed-feed recency cutoffs are
recomputed from fresh `datetime.now()` readings inside the per-item
loops, so an item exactly at the initial window boundary is dropped by
the code but kept under the claimed single `now`. -/
theorem search_news_not_single_now :
    search_news movingClock xPd none (fun _ _ => []) [] 0 "" 1
        [boundaryItem] [] [] [] [] []
      ≠ searchNewsSingleNow (movingClock 0) xPd none (fun _ _ => []) [] "" 1
        [boundaryItem] [] [] [] [] [] := by
  decide

/-- C9 amended: the `[now − days_back, now]` window passed to the
keyed-API adapter is computed once from the initial clock reading, but
every fixed-feed adapter recomputes `now` for each item whose timestamp
it checks; consequently all temporal filtering uses one single `now`
exactly when the clock does not advance during the invocation — under a
constant clock, `search_news` coincides with the single-`now` model. -/
theorem search_news_single_now_const_clock (T : Int) (pd : String → Option Int)
    (apiKey : Option String) (apiFetch : Int → Int → List Article)
    (customResults : List (List Article)) (customTicks : Nat)
    (query : String) (daysBack : Nat)
    (gItems aItems bItems rItems cItems guItems : List RssItem) :
    search_news (fun _ => T) pd apiKey apiFetch customResults customTicks
        query daysBack gItems aItems bItems rItems cItems guItems
      = searchNewsSingleNow T pd apiKey apiFetch customResults
        query daysBack gItems aItems bItems rItems cItems guItems := by
  simp only [search_news, searchNewsSingleNow, concatResults,
    googleLoop_fst_const, feedLoop_fst_const]
